import Mathlib

/-!
Shallow embedding of `src/platform/x86_pc/os.cpp` from the IncludeOS
unikernel: the boot orchestrator `OS::start`, the halt primitive
`OS::halt`, and the idle/event loop `OS::event_loop`.

Modelling conventions:
- `uintptr_t` is modelled as a natural number reduced modulo `2^32`
  (the x86_pc platform builds for ARCH_x86, 32-bit; the clamp against
  `std::numeric_limits<std::ptrdiff_t>::max()` in the source is only
  meaningful at that width).  `uint64_t` cells are naturals modulo `2^64`.
- External collaborators that are not part of this translation unit
  (`OS::multiboot`, `OS::legacy_boot`, `OS::resume_softreset`,
  `is_softreset_magic`, Statman, the memory-map registry, linker symbols,
  plugin function pointers) are abstracted: their observable effect on
  this file is a parameter of the model (`BootEnv`), and the calls that
  `OS::start` makes to them are recorded as events in a boot trace.
- A failed `Expects(...)` contract check aborts the run: the trace ends
  with a `fatal` event carrying the text of the checked expression and
  nothing after it is executed.
- Pure diagnostics output (CAPTION / MYINFO / FILLINE / printf banners)
  is not modelled, except for the log lines emitted by the plugin
  initialization loop, whose content is the subject of a claim.
-/

namespace IncludeOS

/-- `2^32`, the modulus of 32-bit pointer arithmetic. -/
def U32 : Nat := 4294967296

/-- `2^64`, the modulus of the 64-bit cycle counters. -/
def U64 : Nat := 18446744073709551616

/-- 32-bit wraparound subtraction `a - b` on values reduced mod `2^32`. -/
def sub32 (a b : Nat) : Nat := (a % U32 + (U32 - b % U32)) % U32

/-- 64-bit wraparound subtraction `a - b` on values reduced mod `2^64`. -/
def sub64 (a b : Nat) : Nat := (a % U64 + (U64 - b % U64)) % U64

/-- The multiboot magic constant from `boot/multiboot.h`. -/
def MULTIBOOT_BOOTLOADER_MAGIC : Nat := 0x2badb002

/-- A memory range as passed to `memmap.assign_range`: inclusive start and
end addresses, a short name and a description (the optional usage callback
carries no information relevant to the claims and is omitted). -/
structure MemRange where
  start_ : Nat
  end_ : Nat
  name_ : String
  descr : String
deriving DecidableEq, Repr

/-- Two inclusive address ranges overlap when each one starts no later
than the other ends. -/
def MemRange.overlaps (a b : MemRange) : Bool :=
  decide (a.start_ ≤ b.end_) && decide (b.start_ ≤ a.end_)

/-- Outcome of invoking one plugin function pointer `plugin.func_()`:
it returns normally, throws a `std::exception` with a `what()` string,
or throws something that is not a `std::exception`. -/
inductive PluginResult where
  | ok
  | exn (what : String)
  | unknown
deriving DecidableEq, Repr

/-- One entry of `OS::plugins_`: a display name and the (abstracted)
outcome of calling its initializer. -/
structure Plugin where
  name_ : String
  func_ : PluginResult
deriving DecidableEq, Repr

/-- Observable events of a boot / event-loop run, in program order. -/
inductive Ev where
  | statmanInit (base size : Nat)
  | multibootProbe (addr : Nat)
  | resumeSoftreset (addr : Nat)
  | legacyBoot
  | fatal (expr : String)
  | assignRange (r : MemRange)
  | createCounter (counterName : String)
  | platformInit
  | rtcInit
  | rngInit
  | srandSeed
  | bootSequencePassed
  | pluginLog (msg : String)
  | pluginInvoke (pluginName : String)
  | pluginCatchLog (msg : String)
  | serviceStart
  | sanityChecks
  | halt
  | procInterrupts
  | serviceStop
  | poweroff
deriving DecidableEq, Repr

/-- The environment `OS::start` runs in: everything the translation unit
reads but does not define.  `high_memory_size` is the value of
`high_memory_size_` after the boot-type detection stage ran (the probing
routines that set it are external); `heap_max0` is the value the external
probing left in `heap_max_` before `OS::start` recomputes it. -/
structure BootEnv where
  is_softreset_magic : Nat → Bool
  high_memory_size : Nat
  load_start : Nat
  end_addr : Nat
  heap_begin : Nat
  heap_max0 : Nat
  plugins : List Plugin

/-- Boot-type detection (os.cpp lines 117-125): multiboot magic takes the
multiboot path alone; otherwise a recognized soft-reset magic with a
non-zero address first resumes, and the legacy path runs unconditionally. -/
def detect (boot_magic boot_addr : Nat) (env : BootEnv) : List Ev :=
  if boot_magic = MULTIBOOT_BOOTLOADER_MAGIC then
    [Ev.multibootProbe boot_addr]
  else
    (if env.is_softreset_magic boot_magic ∧ boot_addr ≠ 0 then
      [Ev.resumeSoftreset boot_addr]
    else []) ++ [Ev.legacyBoot]

/-- `heap_max_ = ((0x100000 + high_memory_size_) & 0xffff0000) - 1`
(os.cpp line 146), in 32-bit arithmetic. -/
def heap_max_val (hm : Nat) : Nat :=
  sub32 (((0x100000 + hm) % U32) &&& 0xffff0000) 1

/-- `std::numeric_limits<std::ptrdiff_t>::max()` for the 32-bit platform. -/
def span_max : Nat := 0x7fffffff

/-- `heap_range_max_ = std::min(span_max, heap_max_)` (os.cpp line 149). -/
def heap_range_max_val (hm : Nat) : Nat :=
  min span_max (heap_max_val hm)

/-- `{0x6000, 0x8fff, "Statman", "Statistics"}` (os.cpp line 135). -/
def statmanRange : MemRange :=
  ⟨0x6000, 0x8fff, "Statman", "Statistics"⟩

/-- `{0xA000, 0x9fbff, "Stack", ...}` (os.cpp line 136). -/
def stackRange : MemRange :=
  ⟨0xA000, 0x9fbff, "Stack", "Kernel / service main stack"⟩

/-- `{&_LOAD_START_, &_end, "ELF", ...}` (os.cpp lines 137-138). -/
def elfRange (env : BootEnv) : MemRange :=
  ⟨env.load_start, env.end_addr, "ELF", "Your service binary including OS"⟩

/-- `{&_end + 1, ::heap_begin - 1, "Pre-heap", ...}` (os.cpp lines 142-143),
with the pointer arithmetic taken mod `2^32`. -/
def preheapRange (env : BootEnv) : MemRange :=
  ⟨(env.end_addr + 1) % U32, sub32 env.heap_begin 1,
   "Pre-heap", "Heap randomization area"⟩

/-- `{::heap_begin, heap_range_max_, "Heap", ...}` (os.cpp lines 152-153). -/
def heapRange (env : BootEnv) : MemRange :=
  ⟨env.heap_begin, heap_range_max_val env.high_memory_size,
   "Heap", "Dynamic memory"⟩

/-- Events emitted for one plugin by the loop body (os.cpp lines 189-198):
the `INFO2("* Initializing %s", ...)` line, the invocation, and, when the
invocation fails, the log line emitted by the matching catch handler
(`pluginCatchLog`, rendered exactly as the source formats it). -/
def pluginEvents (p : Plugin) : List Ev :=
  [Ev.pluginLog ("* Initializing " ++ p.name_), Ev.pluginInvoke p.name_] ++
  match p.func_ with
  | PluginResult.ok => []
  | PluginResult.exn w =>
      [Ev.pluginCatchLog ("Exception thrown when initializing plugin: " ++ w)]
  | PluginResult.unknown =>
      [Ev.pluginCatchLog "Unknown exception when initializing plugin"]

/-- The whole plugin loop `for (auto plugin : plugins_) ...`. -/
def pluginTrace : List Plugin → List Ev
  | [] => []
  | p :: ps => pluginEvents p ++ pluginTrace ps

namespace OS

/-- The boot trace of `OS::start(boot_magic, boot_addr)` (os.cpp lines
100-212): Statman init, boot-type detection, the `Expects` on
`high_memory_size_`, the first three range assignments, the `Expects` on
`::heap_begin and heap_max_` (note: checked before `heap_max_` is
recomputed at line 146), the pre-heap and heap assignments, the two cycle
counters, the platform / RTC / RNG / srand stage, the boot-sequence flag,
the plugin loop, and the service handoff. -/
def start (boot_magic boot_addr : Nat) (env : BootEnv) : List Ev :=
  [Ev.statmanInit 0x6000 0x3000]
  ++ detect boot_magic boot_addr env
  ++ (if env.high_memory_size = 0 then
        [Ev.fatal "high_memory_size_"]
      else
        [Ev.assignRange statmanRange,
         Ev.assignRange stackRange,
         Ev.assignRange (elfRange env)]
        ++ (if env.heap_begin = 0 ∨ env.heap_max0 = 0 then
              [Ev.fatal "::heap_begin and heap_max_"]
            else
              [Ev.assignRange (preheapRange env),
               Ev.assignRange (heapRange env),
               Ev.createCounter "cpu0.cycles_hlt",
               Ev.createCounter "cpu0.cycles_total",
               Ev.platformInit,
               Ev.rtcInit,
               Ev.rngInit,
               Ev.srandSeed,
               Ev.bootSequencePassed]
              ++ pluginTrace env.plugins
              ++ [Ev.serviceStart, Ev.sanityChecks]))

/-- The two 64-bit counter cells `OS::halt` touches.  `cycles_total` is
the cell behind `os_cycles_total` (written through unconditionally, no
null check in the source); `cycles_hlt` is `none` when `os_cycles_hlt`
is still the null pointer. -/
structure CycleCounters where
  cycles_total : Nat
  cycles_hlt : Option Nat
deriving DecidableEq, Repr

/-- `OS::halt` (os.cpp lines 80-97): store the pre-halt cycle checkpoint
through `os_cycles_total` unconditionally, execute `hlt` (waking at cycle
count `wake`), then, only if `os_cycles_hlt` is non-null, add
`cycles_since_boot() - *os_cycles_total` to it, all in `uint64_t`
arithmetic. -/
def halt (checkpoint wake : Nat) (s : CycleCounters) : CycleCounters :=
  let total := checkpoint % U64
  { cycles_total := total
    cycles_hlt :=
      match s.cycles_hlt with
      | some h => some ((h + sub64 wake total) % U64)
      | none => none }

end OS

/-- The `do { OS::halt(); process_interrupts(); } while (power_);` loop of
`OS::event_loop` (os.cpp lines 217-220).  `power i` is the value of the
`power_` flag at the i-th loop-condition check (the environment mutates
it from interrupt context); `fuel` bounds the unrolling, `none` meaning
the flag was still true when fuel ran out. -/
def doWhileTrace (power : Nat → Bool) : Nat → Nat → Option (List Ev)
  | 0, _ => none
  | fuel + 1, i =>
      if power i then
        (doWhileTrace power fuel (i + 1)).map
          (fun rest => Ev.halt :: Ev.procInterrupts :: rest)
      else
        some [Ev.halt, Ev.procInterrupts]

namespace OS

/-- `OS::event_loop` (os.cpp lines 214-228): one initial
`process_interrupts`, the do-while halt loop, then `Service::stop()` and
`__arch_poweroff()` once the loop exits. -/
def event_loop (power : Nat → Bool) (fuel : Nat) : Option (List Ev) :=
  (doWhileTrace power fuel 0).map
    (fun body => Ev.procInterrupts :: (body ++ [Ev.serviceStop, Ev.poweroff]))

end OS

/-- The ranges passed to `assign_range` during a trace, in order. -/
def assignedRanges (t : List Ev) : List MemRange :=
  t.filterMap fun e =>
    match e with
    | Ev.assignRange r => some r
    | _ => none

/-- The plugin names passed to `plugin.func_()` during a trace, in order. -/
def invokedPlugins (t : List Ev) : List String :=
  t.filterMap fun e =>
    match e with
    | Ev.pluginInvoke n => some n
    | _ => none

/-- Events that may occur before the cycle counters exist: registry init,
boot-type probing and range assignment.  None of them is a halt and none
hands control to platform, clock, RNG, plugin or service code. -/
def isSetupEv : Ev → Bool
  | Ev.statmanInit _ _ => true
  | Ev.multibootProbe _ => true
  | Ev.resumeSoftreset _ => true
  | Ev.legacyBoot => true
  | Ev.assignRange _ => true
  | _ => false

/-- Recognizes the log events emitted by the two catch handlers of the
plugin loop, i.e. the events that report a plugin failure. -/
def isCatchLog : Ev → Bool
  | Ev.pluginCatchLog _ => true
  | _ => false

/-- The rendered content of every log line the plugin loop emits during a
trace, in order (both the "Initializing" lines and the catch lines). -/
def logContents (t : List Ev) : List String :=
  t.filterMap fun e =>
    match e with
    | Ev.pluginLog s => some s
    | Ev.pluginCatchLog s => some s
    | _ => none

/-- Does `pre` occur at the head of `l`? -/
def startsWithChars : List Char → List Char → Bool
  | [], _ => true
  | _ :: _, [] => false
  | a :: as, b :: bs => a == b && startsWithChars as bs

/-- Does `needle` occur contiguously anywhere in `hay`? -/
def occursWithin (needle : List Char) : List Char → Bool
  | [] => needle.isEmpty
  | b :: bs => startsWithChars needle (b :: bs) || occursWithin needle bs

/-- Substring test on strings, via their character lists. -/
def strContains (hay needle : String) : Bool :=
  occursWithin needle.data hay.data

/-- The catch-handler log event a given plugin produces, if its
initializer fails (`none` for a plugin that initializes cleanly). -/
def failureLogEvent (p : Plugin) : Option Ev :=
  match p.func_ with
  | PluginResult.ok => none
  | PluginResult.exn w =>
      some (Ev.pluginCatchLog ("Exception thrown when initializing plugin: " ++ w))
  | PluginResult.unknown =>
      some (Ev.pluginCatchLog "Unknown exception when initializing plugin")

/-- The part of the boot trace before the cycle counters are created, on
the success path: Statman init, boot-type detection and the five range
assignments. -/
def startSetup (boot_magic boot_addr : Nat) (env : BootEnv) : List Ev :=
  [Ev.statmanInit 0x6000 0x3000]
  ++ detect boot_magic boot_addr env
  ++ [Ev.assignRange statmanRange,
      Ev.assignRange stackRange,
      Ev.assignRange (elfRange env),
      Ev.assignRange (preheapRange env),
      Ev.assignRange (heapRange env)]

/-- The part of the boot trace after the cycle counters are created, on
the success path: platform, clock, RNG and srand hooks, the boot-sequence
flag, the plugin loop and the service handoff. -/
def startPost (env : BootEnv) : List Ev :=
  [Ev.platformInit, Ev.rtcInit, Ev.rngInit, Ev.srandSeed, Ev.bootSequencePassed]
  ++ pluginTrace env.plugins
  ++ [Ev.serviceStart, Ev.sanityChecks]

/-- A boot environment used to instantiate theorems on concrete inputs:
128 MiB of high memory, the image loaded at 1 MiB, one well-behaved
plugin. -/
def envW : BootEnv :=
  { is_softreset_magic := fun _ => false
    high_memory_size := 0x8000000
    load_start := 0x100000
    end_addr := 0x300000
    heap_begin := 0x400000
    heap_max0 := 0x1000
    plugins := [⟨"example", PluginResult.ok⟩] }

/-- A boot environment in which boot probing left `heap_max_` zero while
`::heap_begin` and the recomputed heap ceiling are both non-zero. -/
def envZeroHeapMax : BootEnv :=
  { is_softreset_magic := fun _ => false
    high_memory_size := 0x1000000
    load_start := 0x100000
    end_addr := 0x300000
    heap_begin := 0x200000
    heap_max0 := 0
    plugins := [] }

/-- A boot environment whose probing found no high memory at all. -/
def envZeroHighMem : BootEnv :=
  { is_softreset_magic := fun _ => false
    high_memory_size := 0
    load_start := 0x100000
    end_addr := 0x300000
    heap_begin := 0x400000
    heap_max0 := 0x1000
    plugins := [] }

/-- A boot environment that recognizes the conventional soft-reset magic. -/
def envSoft : BootEnv :=
  { is_softreset_magic := fun x => decide (x = 0xFEE1DEAD)
    high_memory_size := 0x8000000
    load_start := 0x100000
    end_addr := 0x300000
    heap_begin := 0x400000
    heap_max0 := 0x1000
    plugins := [] }

/-- A boot environment with 2 GiB of high memory, large enough that the
computed heap ceiling exceeds the 32-bit `ptrdiff_t` maximum. -/
def envBig : BootEnv :=
  { is_softreset_magic := fun _ => false
    high_memory_size := 0x7fffffff
    load_start := 0x100000
    end_addr := 0x300000
    heap_begin := 0x400000
    heap_max0 := 0x1000
    plugins := [] }

/- ------------------------------------------------------------------ -/
/- Helper lemmas                                                       -/
/- ------------------------------------------------------------------ -/

/-- Masking a 32-bit value with `0xffff0000` is exactly rounding it down
to a multiple of `0x10000`. -/
theorem and_ffff0000_eq (x : Nat) (hx : x < 4294967296) :
    x &&& 0xffff0000 = x / 65536 * 65536 := by
  apply Nat.eq_of_testBit_eq
  intro i
  have hmask : (0xffff0000 : Nat) = 65535 <<< 16 := by
    rw [Nat.shiftLeft_eq]
  have hdiv : x / 65536 * 65536 = (x >>> 16) <<< 16 := by
    rw [Nat.shiftRight_eq_div_pow, Nat.shiftLeft_eq]
  rw [Nat.testBit_and, hmask, hdiv, Nat.testBit_shiftLeft, Nat.testBit_shiftLeft,
      Nat.testBit_shiftRight]
  have h65535 : (65535 : Nat) = 2 ^ 16 - 1 := by norm_num
  rw [h65535, Nat.testBit_two_pow_sub_one]
  by_cases h16 : 16 ≤ i
  · have hi : 16 + (i - 16) = i := by omega
    rw [hi]
    by_cases h32i : i < 32
    · have : i - 16 < 16 := by omega
      simp [h16, this]
    · have hxb : x.testBit i = false := by
        apply Nat.testBit_lt_two_pow
        calc x < 4294967296 := hx
        _ = 2 ^ 32 := by norm_num
        _ ≤ 2 ^ i := Nat.pow_le_pow_right (by norm_num) (by omega)
      simp [hxb]
  · simp [h16]

/-- The recomputed heap ceiling is never zero, for any high-memory size:
the masked sum is a multiple of `0x10000`, so subtracting 1 in 32-bit
arithmetic lands either on `2^32 - 1` (mask gave 0) or on a value of at
least `0xffff`. -/
theorem heap_max_val_ne_zero (hm : Nat) : heap_max_val hm ≠ 0 := by
  unfold heap_max_val sub32
  have hx : (0x100000 + hm) % U32 < U32 := Nat.mod_lt _ (by simp [U32])
  have hmask := and_ffff0000_eq ((0x100000 + hm) % U32) (by simpa [U32] using hx)
  rw [hmask]
  simp only [U32] at *
  omega

/-- Every event of the detection stage is one of the three probe events. -/
theorem mem_detect {e : Ev} {m a : Nat} {env : BootEnv} (h : e ∈ detect m a env) :
    e = Ev.multibootProbe a ∨ e = Ev.resumeSoftreset a ∨ e = Ev.legacyBoot := by
  unfold detect at h
  split at h
  · simp at h
    simp [h]
  · split at h
    · simp at h
      rcases h with h | h <;> simp [h]
    · simp at h
      simp [h]

/-- The detection stage registers no memory range. -/
theorem assignedRanges_detect (m a : Nat) (env : BootEnv) :
    assignedRanges (detect m a env) = [] := by
  unfold detect assignedRanges
  split
  · rfl
  · split <;> rfl

/-- The plugin loop distributes over list append. -/
theorem pluginTrace_append (xs ys : List Plugin) :
    pluginTrace (xs ++ ys) = pluginTrace xs ++ pluginTrace ys := by
  induction xs with
  | nil => simp [pluginTrace]
  | cons p ps ih => simp [pluginTrace, ih]

/-- The plugin loop registers no memory range. -/
theorem assignedRanges_pluginTrace (ps : List Plugin) :
    assignedRanges (pluginTrace ps) = [] := by
  induction ps with
  | nil => rfl
  | cons p ps ih =>
      rcases hf : p.func_ <;>
        simp [pluginTrace, pluginEvents, assignedRanges, List.filterMap_append, hf] <;>
        simpa [assignedRanges] using ih

/-- The plugin loop never halts the CPU. -/
theorem halt_not_mem_pluginTrace (ps : List Plugin) :
    Ev.halt ∉ pluginTrace ps := by
  induction ps with
  | nil => simp [pluginTrace]
  | cons p ps ih =>
      rcases hf : p.func_ <;> simp [pluginTrace, pluginEvents, hf, ih]

/-- On the success path, the boot trace splits into the setup stages, the
two counter creations, and the later stages, in that order. -/
theorem start_success_eq (m a : Nat) (env : BootEnv)
    (hhm : env.high_memory_size ≠ 0) (hhb : env.heap_begin ≠ 0)
    (hhx : env.heap_max0 ≠ 0) :
    OS.start m a env
      = startSetup m a env
        ++ [Ev.createCounter "cpu0.cycles_hlt", Ev.createCounter "cpu0.cycles_total"]
        ++ startPost env := by
  simp only [OS.start, startSetup, startPost]
  rw [if_neg hhm, if_neg (not_or.mpr ⟨hhb, hhx⟩)]
  simp [List.append_assoc]

/-- On the success path, exactly the five fixed ranges are registered,
in source order. -/
theorem assignedRanges_start (m a : Nat) (env : BootEnv)
    (hhm : env.high_memory_size ≠ 0) (hhb : env.heap_begin ≠ 0)
    (hhx : env.heap_max0 ≠ 0) :
    assignedRanges (OS.start m a env)
      = [statmanRange, stackRange, elfRange env, preheapRange env, heapRange env] := by
  rw [start_success_eq m a env hhm hhb hhx]
  simp only [assignedRanges, List.filterMap_append, startSetup, startPost]
  rw [show (List.filterMap _ (detect m a env) : List MemRange)
        = assignedRanges (detect m a env) from rfl,
      show (List.filterMap _ (pluginTrace env.plugins) : List MemRange)
        = assignedRanges (pluginTrace env.plugins) from rfl,
      assignedRanges_detect, assignedRanges_pluginTrace]
  rfl

/-- Ranges fail to overlap exactly when one ends before the other starts. -/
theorem overlaps_eq_false_iff (r s : MemRange) :
    (r.overlaps s = false) ↔ (r.end_ < s.start_ ∨ s.end_ < r.start_) := by
  simp only [MemRange.overlaps, Bool.and_eq_false_iff, decide_eq_false_iff_not]
  omega

/- ------------------------------------------------------------------ -/
/- Claims                                                              -/
/- ------------------------------------------------------------------ -/

/-- C5: boot-type detection in start(): the multiboot magic runs only
multiboot probing; otherwise a recognized soft-reset magic together with
a non-zero boot address runs the resume path first and then legacy boot
probing unconditionally; in every other case only legacy probing runs. -/
theorem boot_type_detection (m a : Nat) (env : BootEnv) :
    (m = MULTIBOOT_BOOTLOADER_MAGIC → detect m a env = [Ev.multibootProbe a])
    ∧ (m ≠ MULTIBOOT_BOOTLOADER_MAGIC → env.is_softreset_magic m = true → a ≠ 0 →
        detect m a env = [Ev.resumeSoftreset a, Ev.legacyBoot])
    ∧ (m ≠ MULTIBOOT_BOOTLOADER_MAGIC → ¬(env.is_softreset_magic m = true ∧ a ≠ 0) →
        detect m a env = [Ev.legacyBoot]) := by
  refine ⟨?_, ?_, ?_⟩
  · intro h
    simp [detect, h]
  · intro h1 h2 h3
    simp [detect, h1, h2, h3]
  · intro h1 h2
    simp only [detect, if_neg h1]
    rw [if_neg (by simpa using h2)]
    rfl

/-- Instantiation of the detection theorem on all three kinds of inputs:
the multiboot magic, a soft-reset magic with non-zero address, and an
unrecognized magic. -/
theorem boot_type_detection_witness :
    detect 0x2badb002 7 envW = [Ev.multibootProbe 7]
    ∧ detect 0xFEE1DEAD 7 envSoft = [Ev.resumeSoftreset 7, Ev.legacyBoot]
    ∧ detect 5 7 envW = [Ev.legacyBoot] :=
  ⟨(boot_type_detection 0x2badb002 7 envW).1 (by decide),
   (boot_type_detection 0xFEE1DEAD 7 envSoft).2.1 (by decide) (by decide) (by decide),
   (boot_type_detection 5 7 envW).2.2 (by decide) (by decide)⟩

/-- C7: for every positive high-memory size whose sum with the 1 MiB
low-memory offset fits in 32 bits, the computed heap ceiling is that sum
rounded down to a multiple of the fixed block size 0x10000, minus one,
with no further truncation; the aligned sum is moreover at least 1 MiB,
so the subtraction does not wrap. -/
theorem heap_max_is_aligned_sum (hm : Nat) (hpos : 0 < hm)
    (hfit : 0x100000 + hm < U32) :
    heap_max_val hm = (0x100000 + hm) / 0x10000 * 0x10000 - 1
    ∧ 0x100000 ≤ (0x100000 + hm) / 0x10000 * 0x10000 := by
  have hlt : 0x100000 + hm < 4294967296 := hfit
  have hmod : (0x100000 + hm) % U32 = 0x100000 + hm := Nat.mod_eq_of_lt hfit
  have hmask := and_ffff0000_eq (0x100000 + hm) hlt
  constructor
  · unfold heap_max_val sub32
    rw [hmod, hmask]
    simp only [U32]
    omega
  · omega

/-- Instantiation of the heap-ceiling theorem at 128 MiB of high memory:
`(0x100000 + 0x8000000) & 0xffff0000 - 1 = 0x80fffff`. -/
theorem heap_max_is_aligned_sum_witness :
    heap_max_val 0x8000000 = (0x100000 + 0x8000000) / 0x10000 * 0x10000 - 1
    ∧ heap_max_val 0x8000000 = 0x80fffff :=
  ⟨(heap_max_is_aligned_sum 0x8000000 (by decide) (by decide)).1, by decide⟩

/-- C10: halt() stores the pre-halt cycle checkpoint through the
total-cycles pointer unconditionally and guards only the halted-cycles
update with a null check: with both counters present, total-cycles
becomes the checkpoint and halted-cycles grows by exactly the cycles
slept; with a null halted-cycles pointer, only that update is skipped
while the total-cycles write still happens. -/
theorem halt_cycle_accounting :
    (∀ checkpoint wake h t,
        checkpoint ≤ wake → wake < U64 → h + (wake - checkpoint) < U64 →
        OS.halt checkpoint wake ⟨t, some h⟩
          = ⟨checkpoint, some (h + (wake - checkpoint))⟩)
    ∧ (∀ checkpoint wake t, checkpoint < U64 →
        OS.halt checkpoint wake ⟨t, none⟩ = ⟨checkpoint, none⟩) := by
  constructor
  · intro checkpoint wake h t h1 h2 h3
    simp only [OS.halt, sub64, U64, OS.CycleCounters.mk.injEq, Option.some.injEq] at *
    constructor <;> omega
  · intro checkpoint wake t h1
    simp only [OS.halt, sub64, U64, OS.CycleCounters.mk.injEq, and_true] at *
    omega

/-- Instantiation of the halt accounting theorem: a halt entered at cycle
10 and woken at cycle 25 adds 15 halted cycles, and with a null
halted-cycles pointer only the total-cycles cell changes. -/
theorem halt_cycle_accounting_witness :
    OS.halt 10 25 ⟨3, some 100⟩ = ⟨10, some 115⟩
    ∧ OS.halt 10 25 ⟨3, none⟩ = ⟨10, none⟩ :=
  ⟨halt_cycle_accounting.1 10 25 100 3 (by decide) (by decide) (by decide),
   halt_cycle_accounting.2 10 25 3 (by decide)⟩

/-- C4: when boot-type detection leaves zero high memory, start() aborts
at the `Expects(high_memory_size_)` contract check: the trace ends with
the fatal diagnostic, and no range at all is registered, in particular
none beyond the diagnostics/stack/image triple and neither the pre-heap
gap nor the heap. -/
theorem start_zero_highmem_aborts (m a : Nat) (env : BootEnv)
    (h : env.high_memory_size = 0) :
    OS.start m a env
      = [Ev.statmanInit 0x6000 0x3000] ++ detect m a env
        ++ [Ev.fatal "high_memory_size_"]
    ∧ (OS.start m a env).getLast? = some (Ev.fatal "high_memory_size_")
    ∧ assignedRanges (OS.start m a env) = []
    ∧ (∀ r ∈ assignedRanges (OS.start m a env),
        r.name_ ≠ "Pre-heap" ∧ r.name_ ≠ "Heap") := by
  have he : OS.start m a env
      = [Ev.statmanInit 0x6000 0x3000] ++ detect m a env
        ++ [Ev.fatal "high_memory_size_"] := by
    simp [OS.start, h]
  have hr : assignedRanges (OS.start m a env) = [] := by
    rw [he]
    simp only [assignedRanges, List.filterMap_append]
    rw [show (List.filterMap _ (detect m a env) : List MemRange)
          = assignedRanges (detect m a env) from rfl, assignedRanges_detect]
    rfl
  refine ⟨he, ?_, hr, ?_⟩
  · rw [he, List.getLast?_concat]
  · intro r hrr
    rw [hr] at hrr
    simp at hrr

/-- Instantiation of the zero-high-memory theorem on a concrete
environment with no high memory. -/
theorem start_zero_highmem_aborts_witness :
    (OS.start 5 7 envZeroHighMem).getLast? = some (Ev.fatal "high_memory_size_")
    ∧ assignedRanges (OS.start 5 7 envZeroHighMem) = [] :=
  ⟨(start_zero_highmem_aborts 5 7 envZeroHighMem (by decide)).2.1,
   (start_zero_highmem_aborts 5 7 envZeroHighMem (by decide)).2.2.1⟩

/-- A list of five ranges that are each well-formed and strictly ordered
with gaps is pairwise non-overlapping. -/
theorem pairwise_disjoint_chain (r1 r2 r3 r4 r5 : MemRange)
    (w2 : r2.start_ ≤ r2.end_) (w3 : r3.start_ ≤ r3.end_)
    (w4 : r4.start_ ≤ r4.end_)
    (h12 : r1.end_ < r2.start_) (h23 : r2.end_ < r3.start_)
    (h34 : r3.end_ < r4.start_) (h45 : r4.end_ < r5.start_) :
    ([r1, r2, r3, r4, r5] : List MemRange).Pairwise
      (fun r s => r.overlaps s = false) := by
  refine List.Pairwise.cons ?_ (List.Pairwise.cons ?_ (List.Pairwise.cons ?_
    (List.Pairwise.cons ?_ (List.Pairwise.cons (by simp) List.Pairwise.nil))))
  · intro s hs
    simp only [List.mem_cons, List.not_mem_nil, or_false] at hs
    rcases hs with h | h | h | h <;> subst h <;> rw [overlaps_eq_false_iff] <;> omega
  · intro s hs
    simp only [List.mem_cons, List.not_mem_nil, or_false] at hs
    rcases hs with h | h | h <;> subst h <;> rw [overlaps_eq_false_iff] <;> omega
  · intro s hs
    simp only [List.mem_cons, List.not_mem_nil, or_false] at hs
    rcases hs with h | h <;> subst h <;> rw [overlaps_eq_false_iff] <;> omega
  · intro s hs
    simp only [List.mem_cons, List.not_mem_nil, or_false] at hs
    subst hs
    rw [overlaps_eq_false_iff]
    omega

/-- C1: in a boot whose linker- and probe-provided addresses respect the
physical layout (image above the stack region, image start before image
end, a non-empty pre-heap gap, heap start below the heap ceiling), every
range registered by start() satisfies start ≤ end, no two registered
ranges overlap, and they are registered exactly in the order diagnostics
(Statman), kernel stack, loaded image (ELF), pre-heap gap, heap. -/
theorem start_memory_ranges_wf (m a : Nat) (env : BootEnv)
    (hhm : env.high_memory_size ≠ 0) (hhb : env.heap_begin ≠ 0)
    (hhx : env.heap_max0 ≠ 0)
    (h1 : 0x9fbff < env.load_start) (h2 : env.load_start ≤ env.end_addr)
    (h3 : env.end_addr + 2 ≤ env.heap_begin) (h4 : env.heap_begin < U32)
    (h5 : env.heap_begin ≤ heap_range_max_val env.high_memory_size) :
    ((assignedRanges (OS.start m a env)).map MemRange.name_
      = ["Statman", "Stack", "ELF", "Pre-heap", "Heap"])
    ∧ (∀ r ∈ assignedRanges (OS.start m a env), r.start_ ≤ r.end_)
    ∧ (assignedRanges (OS.start m a env)).Pairwise
        (fun r s => r.overlaps s = false) := by
  have h4' : env.heap_begin < 4294967296 := h4
  have hpre : (env.end_addr + 1) % U32 = env.end_addr + 1 := by
    apply Nat.mod_eq_of_lt
    simp only [U32]
    omega
  have hsub : sub32 env.heap_begin 1 = env.heap_begin - 1 := by
    simp only [sub32, U32]
    omega
  rw [assignedRanges_start m a env hhm hhb hhx]
  refine ⟨rfl, ?_, ?_⟩
  · intro r hr
    simp only [List.mem_cons, List.not_mem_nil, or_false] at hr
    rcases hr with h | h | h | h | h <;> subst h <;>
      simp only [statmanRange, stackRange, elfRange, preheapRange, heapRange,
        hpre, hsub]
    · decide
    · decide
    · exact h2
    · omega
    · exact h5
  · apply pairwise_disjoint_chain <;>
      simp only [statmanRange, stackRange, elfRange, preheapRange, heapRange,
        hpre, hsub] <;>
      omega

/-- Instantiation of the memory-map theorem on a concrete well-laid-out
environment. -/
theorem start_memory_ranges_wf_witness :
    (assignedRanges (OS.start 5 7 envW)).map MemRange.name_
      = ["Statman", "Stack", "ELF", "Pre-heap", "Heap"] :=
  (start_memory_ranges_wf 5 7 envW (by decide) (by decide) (by decide) (by decide)
    (by decide) (by decide) (by decide) (by decide)).1

/-- C2: on every boot that reaches the counter-registration stage
(positive high memory, non-zero heap bounds), the two mandatory cycle
counters are created right after the memory-map stage: everything before
them in the trace is registry/probing/assignment setup (none of which is
a halt or hands control to code that could halt), and start() itself
never emits a halt at all. -/
theorem start_counters_before_first_halt (m a : Nat) (env : BootEnv)
    (hhm : env.high_memory_size ≠ 0) (hhb : env.heap_begin ≠ 0)
    (hhx : env.heap_max0 ≠ 0) :
    OS.start m a env
      = startSetup m a env
        ++ [Ev.createCounter "cpu0.cycles_hlt", Ev.createCounter "cpu0.cycles_total"]
        ++ startPost env
    ∧ (startSetup m a env).all isSetupEv = true
    ∧ Ev.halt ∉ OS.start m a env := by
  have he := start_success_eq m a env hhm hhb hhx
  have hall : (startSetup m a env).all isSetupEv = true := by
    have hdet : (detect m a env).all isSetupEv = true := by
      rw [List.all_eq_true]
      intro e hee
      rcases mem_detect hee with h | h | h <;> subst h <;> rfl
    simp [startSetup, List.all_append, hdet, isSetupEv]
  have hhalt : Ev.halt ∉ OS.start m a env := by
    rw [he]
    intro hmem
    simp only [List.mem_append] at hmem
    rcases hmem with (hmem | hmem) | hmem
    · have := List.all_eq_true.mp hall _ hmem
      simp [isSetupEv] at this
    · simp at hmem
    · simp only [startPost, List.mem_append] at hmem
      rcases hmem with (hmem | hmem) | hmem
      · simp at hmem
      · exact halt_not_mem_pluginTrace env.plugins hmem
      · simp at hmem
  exact ⟨he, hall, hhalt⟩

/-- Instantiation of the counter-ordering theorem on a concrete
environment. -/
theorem start_counters_before_first_halt_witness :
    (startSetup 5 7 envW).all isSetupEv = true ∧ Ev.halt ∉ OS.start 5 7 envW :=
  ⟨(start_counters_before_first_halt 5 7 envW (by decide) (by decide) (by decide)).2.1,
   (start_counters_before_first_halt 5 7 envW (by decide) (by decide) (by decide)).2.2⟩

/-- C8: on every boot that registers the heap, the registered heap range
ends at min(heap ceiling, maximum representable address span): when the
ceiling exceeds the span the registered end is the span, otherwise it is
the ceiling itself. -/
theorem heap_range_end_clamped (m a : Nat) (env : BootEnv)
    (hhm : env.high_memory_size ≠ 0) (hhb : env.heap_begin ≠ 0)
    (hhx : env.heap_max0 ≠ 0) :
    Ev.assignRange (heapRange env) ∈ OS.start m a env
    ∧ (heapRange env).end_ = min span_max (heap_max_val env.high_memory_size)
    ∧ (span_max < heap_max_val env.high_memory_size →
        (heapRange env).end_ = span_max)
    ∧ (heap_max_val env.high_memory_size ≤ span_max →
        (heapRange env).end_ = heap_max_val env.high_memory_size) := by
  refine ⟨?_, rfl, ?_, ?_⟩
  · rw [start_success_eq m a env hhm hhb hhx]
    simp [startSetup]
  · intro h
    simp only [heapRange, heap_range_max_val]
    exact Nat.min_eq_left h.le
  · intro h
    simp only [heapRange, heap_range_max_val]
    exact Nat.min_eq_right h

/-- Instantiation of the clamp theorem: with 2 GiB of high memory the
ceiling exceeds the span and the registered end is the span; with
128 MiB it does not and the ceiling is used unchanged. -/
theorem heap_range_end_clamped_witness :
    (heapRange envBig).end_ = span_max
    ∧ (heapRange envW).end_ = heap_max_val 0x8000000 :=
  ⟨(heap_range_end_clamped 5 7 envBig (by decide) (by decide) (by decide)).2.2.1
      (by decide),
   (heap_range_end_clamped 5 7 envW (by decide) (by decide) (by decide)).2.2.2
      (by decide)⟩

/-- C9 counterexample: the assertion before heap registration checks the
heap-max value left by boot probing, not the recomputed heap ceiling.  In
this environment the heap start and the computed heap ceiling are both
non-zero, so the claim says the assertion passes, yet start() aborts with
the fatal diagnostic and never registers the heap range, because the
pre-existing heap_max_ value is zero. -/
theorem heap_assert_checks_prior_value :
    envZeroHeapMax.heap_begin ≠ 0
    ∧ heap_max_val envZeroHeapMax.high_memory_size ≠ 0
    ∧ Ev.fatal "::heap_begin and heap_max_" ∈ OS.start 5 7 envZeroHeapMax
    ∧ Ev.assignRange (heapRange envZeroHeapMax) ∉ OS.start 5 7 envZeroHeapMax := by
  decide

/-- C9 (amended): before registering the heap, start() asserts that the
heap start and the heap-max value discovered during boot probing (the
value heap_max_ holds before its recomputation) are both non-zero,
aborting with the fatal diagnostic otherwise; whenever the heap range is
registered, its start and its end are both non-zero (the recomputed
ceiling is never zero). -/
theorem heap_assert_amended (m a : Nat) (env : BootEnv)
    (hhm : env.high_memory_size ≠ 0) :
    ((env.heap_begin = 0 ∨ env.heap_max0 = 0) →
        Ev.fatal "::heap_begin and heap_max_" ∈ OS.start m a env
        ∧ Ev.assignRange (heapRange env) ∉ OS.start m a env)
    ∧ (env.heap_begin ≠ 0 → env.heap_max0 ≠ 0 →
        Ev.assignRange (heapRange env) ∈ OS.start m a env
        ∧ (heapRange env).start_ ≠ 0
        ∧ (heapRange env).end_ ≠ 0) := by
  constructor
  · intro hor
    have he : OS.start m a env
        = [Ev.statmanInit 0x6000 0x3000] ++ detect m a env
          ++ ([Ev.assignRange statmanRange, Ev.assignRange stackRange,
               Ev.assignRange (elfRange env)]
              ++ [Ev.fatal "::heap_begin and heap_max_"]) := by
      simp only [OS.start]
      rw [if_neg hhm, if_pos hor]
    have hr : assignedRanges (OS.start m a env)
        = [statmanRange, stackRange, elfRange env] := by
      rw [he]
      simp only [assignedRanges, List.filterMap_append]
      rw [show (List.filterMap _ (detect m a env) : List MemRange)
            = assignedRanges (detect m a env) from rfl, assignedRanges_detect]
      rfl
    constructor
    · rw [he]
      simp
    · intro hmem
      have hin : heapRange env ∈ assignedRanges (OS.start m a env) :=
        List.mem_filterMap.mpr ⟨Ev.assignRange (heapRange env), hmem, rfl⟩
      rw [hr] at hin
      simp only [List.mem_cons, List.not_mem_nil, or_false] at hin
      rcases hin with h | h | h <;>
      · have hname := congrArg MemRange.name_ h
        simp only [heapRange, statmanRange, stackRange, elfRange] at hname
        exact absurd hname (by decide)
  · intro hb hx
    refine ⟨?_, ?_, ?_⟩
    · rw [start_success_eq m a env hhm hb hx]
      simp [startSetup]
    · simpa [heapRange] using hb
    · have h0 := heap_max_val_ne_zero env.high_memory_size
      simp only [heapRange, heap_range_max_val, span_max]
      omega

/-- Instantiation of the amended heap-assert theorem on both sides: the
zero-probed-heap-max environment aborts without registering the heap, and
a well-formed environment registers a heap range with non-zero bounds. -/
theorem heap_assert_amended_witness :
    (Ev.fatal "::heap_begin and heap_max_" ∈ OS.start 5 7 envZeroHeapMax
      ∧ Ev.assignRange (heapRange envZeroHeapMax) ∉ OS.start 5 7 envZeroHeapMax)
    ∧ (Ev.assignRange (heapRange envW) ∈ OS.start 5 7 envW
      ∧ (heapRange envW).start_ ≠ 0
      ∧ (heapRange envW).end_ ≠ 0) :=
  ⟨(heap_assert_amended 5 7 envZeroHeapMax (by decide)).1 (by decide),
   (heap_assert_amended 5 7 envW (by decide)).2 (by decide) (by decide)⟩

/-- The plugin invocations of a single loop body are exactly that plugin,
once. -/
theorem invokedPlugins_pluginEvents (p : Plugin) :
    invokedPlugins (pluginEvents p) = [p.name_] := by
  rcases hf : p.func_ <;> simp [pluginEvents, invokedPlugins, hf]

/-- The plugin loop invokes every registered plugin exactly once, in list
order, regardless of which initializers fail. -/
theorem invokedPlugins_pluginTrace (ps : List Plugin) :
    invokedPlugins (pluginTrace ps) = ps.map Plugin.name_ := by
  induction ps with
  | nil => rfl
  | cons p ps ih =>
      simp only [pluginTrace, List.map_cons]
      rw [show invokedPlugins (pluginEvents p ++ pluginTrace ps)
            = invokedPlugins (pluginEvents p) ++ invokedPlugins (pluginTrace ps) from
          List.filterMap_append _ _ _,
        invokedPlugins_pluginEvents, ih]
      rfl

/-- A cleanly initializing plugin emits no catch-handler log. -/
theorem countP_catch_pluginEvents_ok (p : Plugin)
    (h : p.func_ = PluginResult.ok) :
    (pluginEvents p).countP isCatchLog = 0 := by
  simp [pluginEvents, h, isCatchLog]

/-- A failing plugin emits exactly one catch-handler log. -/
theorem countP_catch_pluginEvents_fail (p : Plugin)
    (h : p.func_ ≠ PluginResult.ok) :
    (pluginEvents p).countP isCatchLog = 1 := by
  rcases hf : p.func_ with _ | w | _
  · exact absurd hf h
  · simp [pluginEvents, hf, isCatchLog]
  · simp [pluginEvents, hf, isCatchLog]

/-- A run of cleanly initializing plugins emits no catch-handler log. -/
theorem countP_catch_pluginTrace_ok (ps : List Plugin)
    (h : ∀ q ∈ ps, q.func_ = PluginResult.ok) :
    (pluginTrace ps).countP isCatchLog = 0 := by
  induction ps with
  | nil => rfl
  | cons p ps ih =>
      simp only [pluginTrace, List.countP_append]
      rw [countP_catch_pluginEvents_ok p (h p (by simp)),
          ih (fun q hq => h q (by simp [hq]))]

/-- C3 counterexample: when the single plugin "gadget" fails with the
description "boom", exactly one failure is logged, but no single log line
contains both the plugin display name and the failure description — the
catch handler logs only the description, so the claim that each failure
is "logged with the plugin display name and a failure description" fails
on this input. -/
theorem plugin_failure_log_lacks_name :
    pluginTrace [⟨"gadget", PluginResult.exn "boom"⟩]
      = [Ev.pluginLog "* Initializing gadget",
         Ev.pluginInvoke "gadget",
         Ev.pluginCatchLog "Exception thrown when initializing plugin: boom"]
    ∧ (pluginTrace [⟨"gadget", PluginResult.exn "boom"⟩]).countP isCatchLog = 1
    ∧ (logContents (pluginTrace [⟨"gadget", PluginResult.exn "boom"⟩])).all
        (fun s => !(strContains s "gadget" && strContains s "boom")) = true := by
  decide

/-- C3 (amended): for every plugin list in which one plugin fails and all
others succeed, the loop invokes all initializers exactly once in list
order; the failure is caught and logged exactly once, with the failure
description (or the generic unknown-exception message), while the plugin
display name appears in the separate "Initializing" log line emitted just
before the invocation; and boot always continues to the service handoff. -/
theorem plugin_initializer_isolates_failures
    (as bs : List Plugin) (p : Plugin)
    (hfail : p.func_ ≠ PluginResult.ok)
    (has : ∀ q ∈ as, q.func_ = PluginResult.ok)
    (hbs : ∀ q ∈ bs, q.func_ = PluginResult.ok) :
    invokedPlugins (pluginTrace (as ++ p :: bs)) = (as ++ p :: bs).map Plugin.name_
    ∧ (pluginTrace (as ++ p :: bs)).countP isCatchLog = 1
    ∧ (∃ e, failureLogEvent p = some e ∧ e ∈ pluginTrace (as ++ p :: bs))
    ∧ Ev.pluginLog ("* Initializing " ++ p.name_) ∈ pluginTrace (as ++ p :: bs)
    ∧ (∀ m a env, env.plugins = as ++ p :: bs →
        env.high_memory_size ≠ 0 → env.heap_begin ≠ 0 → env.heap_max0 ≠ 0 →
        Ev.serviceStart ∈ OS.start m a env) := by
  have htr : pluginTrace (as ++ p :: bs)
      = pluginTrace as ++ (pluginEvents p ++ pluginTrace bs) := by
    rw [pluginTrace_append]
    rfl
  refine ⟨invokedPlugins_pluginTrace _, ?_, ?_, ?_, ?_⟩
  · rw [htr]
    simp only [List.countP_append]
    rw [countP_catch_pluginTrace_ok as has, countP_catch_pluginTrace_ok bs hbs,
        countP_catch_pluginEvents_fail p hfail]
  · rcases hf : p.func_ with _ | w | _
    · exact absurd hf hfail
    · refine ⟨Ev.pluginCatchLog ("Exception thrown when initializing plugin: " ++ w),
        ?_, ?_⟩
      · simp [failureLogEvent, hf]
      · rw [htr]
        simp [pluginEvents, hf]
    · refine ⟨Ev.pluginCatchLog "Unknown exception when initializing plugin", ?_, ?_⟩
      · simp [failureLogEvent, hf]
      · rw [htr]
        simp [pluginEvents, hf]
  · rw [htr]
    simp [pluginEvents]
  · intro m a env henv hhm hhb hhx
    rw [start_success_eq m a env hhm hhb hhx]
    simp [startPost]

/-- Instantiation of the amended plugin theorem on a three-plugin list
whose middle plugin fails. -/
theorem plugin_initializer_isolates_failures_witness :
    invokedPlugins (pluginTrace [⟨"alpha", PluginResult.ok⟩,
        ⟨"gadget", PluginResult.exn "boom"⟩, ⟨"beta", PluginResult.ok⟩])
      = ["alpha", "gadget", "beta"]
    ∧ (pluginTrace [⟨"alpha", PluginResult.ok⟩,
        ⟨"gadget", PluginResult.exn "boom"⟩,
        ⟨"beta", PluginResult.ok⟩]).countP isCatchLog = 1 :=
  ⟨(plugin_initializer_isolates_failures [⟨"alpha", PluginResult.ok⟩]
      [⟨"beta", PluginResult.ok⟩] ⟨"gadget", PluginResult.exn "boom"⟩
      (by decide) (by decide) (by decide)).1,
   (plugin_initializer_isolates_failures [⟨"alpha", PluginResult.ok⟩]
      [⟨"beta", PluginResult.ok⟩] ⟨"gadget", PluginResult.exn "boom"⟩
      (by decide) (by decide) (by decide)).2.1⟩

/-- With the power flag observed true at the first `M - 1` condition
checks and false at check `M - 1`, the do-while loop runs exactly `M`
iterations of halt followed by interrupt processing. -/
theorem doWhile_replicate (M : Nat) : ∀ (fuel i : Nat), i < M → M ≤ i + fuel →
    doWhileTrace (fun j => decide (j + 1 < M)) fuel i
      = some (List.flatten (List.replicate (M - i) [Ev.halt, Ev.procInterrupts])) := by
  intro fuel
  induction fuel with
  | zero =>
      intro i hi hM
      omega
  | succ n ih =>
      intro i hi hM
      by_cases hc : i + 1 < M
      · rw [show M - i = (M - (i + 1)) + 1 by omega]
        simp only [doWhileTrace, hc, decide_True, if_true, ih (i + 1) hc (by omega),
          Option.map_some', List.replicate_succ, List.flatten_cons]
        rfl
      · have hMi : M - i = 1 := by omega
        simp [doWhileTrace, hc, hMi]

/-- The event count of `M` repeated loop bodies. -/
theorem count_join_replicate (M : Nat) (e : Ev) (l : List Ev) :
    (List.flatten (List.replicate M l)).count e = M * l.count e := by
  induction M with
  | zero => simp
  | succ n ih =>
      simp only [List.replicate_succ, List.flatten_cons, List.count_append, ih,
        Nat.succ_mul]
      omega

/-- C6: with `M ≥ 1` wake-ups and the power flag observed false at the
`M`-th loop-condition check, the event loop performs one initial
interrupt-processing call, then exactly `M` halts each followed by an
interrupt-processing call, exits the loop at the false check, calls the
service stop entrypoint exactly once, and ends with the power-off call. -/
theorem event_loop_trace (M : Nat) (hM : 1 ≤ M) :
    OS.event_loop (fun j => decide (j + 1 < M)) M
      = some (Ev.procInterrupts ::
          (List.flatten (List.replicate M [Ev.halt, Ev.procInterrupts])
            ++ [Ev.serviceStop, Ev.poweroff]))
    ∧ (List.flatten (List.replicate M [Ev.halt, Ev.procInterrupts])).count Ev.halt = M
    ∧ (List.flatten (List.replicate M [Ev.halt, Ev.procInterrupts])).count
        Ev.procInterrupts = M
    ∧ (Ev.procInterrupts ::
        (List.flatten (List.replicate M [Ev.halt, Ev.procInterrupts])
          ++ [Ev.serviceStop, Ev.poweroff])).count Ev.serviceStop = 1
    ∧ (Ev.procInterrupts ::
        (List.flatten (List.replicate M [Ev.halt, Ev.procInterrupts])
          ++ [Ev.serviceStop, Ev.poweroff])).getLast? = some Ev.poweroff := by
  have hd := doWhile_replicate M M 0 (by omega) (by omega)
  refine ⟨?_, ?_, ?_, ?_, ?_⟩
  · simp [OS.event_loop, hd]
  · rw [count_join_replicate, show ([Ev.halt, Ev.procInterrupts].count Ev.halt) = 1
        from by decide]
    omega
  · rw [count_join_replicate,
        show ([Ev.halt, Ev.procInterrupts].count Ev.procInterrupts) = 1 from by decide]
    omega
  · rw [List.count_cons, List.count_append, count_join_replicate,
        show ([Ev.halt, Ev.procInterrupts].count Ev.serviceStop) = 0 from by decide,
        show ([Ev.serviceStop, Ev.poweroff].count Ev.serviceStop) = 1 from by decide]
    simp
  · rw [show Ev.procInterrupts ::
          (List.flatten (List.replicate M [Ev.halt, Ev.procInterrupts])
            ++ [Ev.serviceStop, Ev.poweroff])
        = (Ev.procInterrupts ::
            (List.flatten (List.replicate M [Ev.halt, Ev.procInterrupts])
              ++ [Ev.serviceStop])) ++ [Ev.poweroff] from by simp,
        List.getLast?_concat]

/-- Instantiation of the event-loop theorem at `M = 2`. -/
theorem event_loop_trace_witness :
    (1 : Nat) ≤ 2
    ∧ OS.event_loop (fun j => decide (j + 1 < 2)) 2
      = some (Ev.procInterrupts ::
          (List.flatten (List.replicate 2 [Ev.halt, Ev.procInterrupts])
            ++ [Ev.serviceStop, Ev.poweroff])) :=
  ⟨by decide, (event_loop_trace 2 (by decide)).1⟩

end IncludeOS
